import Mathlib

/-!
Verification of the knowbrow multi-source query gateway.

The definitions below are shallow embeddings of the Python code in
`knowbrow/backend/fastapi/main.py`, `knowbrow/backend/fastapi/config_endpoints.py`
and `knowbrow/backend/django/graphs/api_views.py`.  Pure helper functions are
translated directly; HTTP handlers are modelled as pure functions of the data
they would fetch from their collaborators (the Django record store and the
token validator), with outbound network calls represented as explicit
constructors so that "no backend call is made" is a statement about the
returned value.  String primitives are implemented structurally over
`List Char` so that every definition evaluates inside the kernel.
-/

/-- Python `\s` on the ASCII range, as used by the `re` module and `str.strip`. -/
def isPySpace (c : Char) : Bool :=
  c = ' ' || c = '\t' || c = '\n' || c = '\r' || c = '\x0b' || c = '\x0c'

/-- Python `\w` (word character) on the ASCII range. -/
def isWordChar (c : Char) : Bool :=
  c.isAlphanum || c = '_'

/-- Python `str.lower()` (ASCII case folding). -/
def strLower (s : String) : String :=
  String.mk (s.data.map Char.toLower)

/-- Python `str.strip()`: remove leading and trailing whitespace. -/
def pyStrip (s : String) : String :=
  String.mk (((s.data.dropWhile isPySpace).reverse.dropWhile isPySpace).reverse)

/-- Python `str.replace(" ", "_")` (single-character pattern). -/
def replaceSpaceUnderscore (s : String) : String :=
  String.mk (s.data.map (fun c => if c = ' ' then '_' else c))

/-- Embeds `_normalize_source_name` (main.py:73-74):
`(name or "").strip().lower().replace(" ", "_")`. -/
def normalizeSourceName (name : String) : String :=
  replaceSpaceUnderscore (strLower (pyStrip name))

/-- Python `c in s` for a single character. -/
def strContainsChar (s : String) (c : Char) : Bool :=
  s.data.contains c

/-- Substring test on character lists (Python `needle in haystack`).
The empty needle is contained in everything, as in Python. -/
def containsSubList (needle haystack : List Char) : Bool :=
  needle.isPrefixOf haystack ||
    match haystack with
    | [] => false
    | _ :: t => containsSubList needle t

/-- Python `sub in s` for strings. -/
def strContainsSub (s sub : String) : Bool :=
  containsSubList sub.data s.data

/-- Lexicographic (code-point) order on character lists, the order Python
uses to compare strings. -/
def listLexLe : List Char → List Char → Bool
  | [], _ => true
  | _ :: _, [] => false
  | a :: as, b :: bs =>
    if a.toNat < b.toNat then true
    else if b.toNat < a.toNat then false
    else listLexLe as bs

/-- Python string `<=` (code-point lexicographic). -/
def strLeB (a b : String) : Bool :=
  listLexLe a.data b.data

/-- Stable insertion of `a` into a list sorted by `le`: `a` goes after every
element `b` with `le b a`, which reproduces the stability of Python sorts. -/
def insertStable (le : α → α → Bool) (a : α) : List α → List α
  | [] => [a]
  | b :: t => if le b a then b :: insertStable le a t else a :: b :: t

/-- Stable sort by `le` (insertion sort), modelling Python `sorted`/`list.sort`. -/
def sortStableBy (le : α → α → Bool) (l : List α) : List α :=
  l.foldl (fun acc x => insertStable le x acc) []

/-- Python `sorted` on strings. -/
def sortStrings (l : List String) : List String :=
  sortStableBy strLeB l

/-- Set-like deduplication keeping first occurrences. -/
def dedupStr : List String → List String
  | [] => []
  | a :: t => a :: ((dedupStr t).filter (fun x => x ≠ a))

/-- Embeds `_sorted_unique` (main.py:661-662):
`sorted({v for v in values if v})`. -/
def sortedUnique (values : List String) : List String :=
  sortStrings (dedupStr (values.filter (fun v => v ≠ "")))

/-- Python `a or b` where `a` is a string-or-None and the empty string is
falsy. -/
def pyOrO (a b : Option String) : Option String :=
  match a with
  | some s => if s = "" then b else some s
  | none => b

/-- Python `a or d` collapsing a string-or-None to a string default. -/
def pyOrD (a : Option String) (d : String) : String :=
  match a with
  | some s => if s = "" then d else s
  | none => d

/-- Security policy fields of a source record (`security_policy` JSON object).
`none` in an `Option` field models an absent (or JSON-null) key. -/
structure SecurityPolicy where
  isPublic : Option Bool := none
  queryDomains : List String := []
  adminOnlySparqlTerms : List String := []
  adminOnlyTablePatterns : List String := []
  manageDomains : List String := []
deriving Repr, DecidableEq

/-- UI descriptor of a source record (`ui_config` JSON object). -/
structure UiConfig where
  displayName : Option String := none
  icon : Option String := none
  color : Option String := none
  uiDescription : Option String := none
deriving Repr, DecidableEq

/-- A normalized source record as returned by the Django record store and
consumed by the FastAPI layer (a JSON dictionary in the Python code).
`typeF`/`sourceTypeF` model the `type` and `source_type` keys;
`canAdmin`/`canManage` model the truthiness of `can_admin`/`can_manage`. -/
structure SourceRec where
  sid : Option Int := none
  name : String := ""
  typeF : Option String := none
  sourceTypeF : Option String := none
  securityPolicy : Option SecurityPolicy := none
  connectionConfig : List (String × String) := []
  uiConfig : Option UiConfig := none
  descriptionF : Option String := none
  allowWriteBack : Bool := false
  canAdmin : Bool := false
  canManage : Bool := false
deriving Repr, DecidableEq

/-- The effective type string of a source record:
`(source.get('type') or source.get('source_type') or '').strip().lower()`. -/
def sourceEffectiveType (s : SourceRec) : String :=
  strLower (pyStrip (pyOrD (pyOrO s.typeF s.sourceTypeF) ""))

/-- The normalized query-domain set of a policy:
`{str(d).strip().lower() for d in query_domains if str(d).strip()}`. -/
def normalizedQueryDomains (p : SecurityPolicy) : List String :=
  (p.queryDomains.filter (fun d => pyStrip d ≠ "")).map (fun d => strLower (pyStrip d))

/-- Embeds `_is_public_source_record` (main.py:76-94). -/
def isPublicSourceRecord (s : SourceRec) : Bool :=
  let sourceType := sourceEffectiveType s
  let policy := s.securityPolicy.getD {}
  if policy.isPublic.getD false then true
  else
    let nd := normalizedQueryDomains policy
    if nd.contains "*" || nd.contains "public" then true
    else if sourceType = "ols" then !(policy.isPublic == some false)
    else normalizeSourceName s.name = "wikidata"

/-- The public-classification rule exactly as claim C4 words it: a flat
disjunction in which the well-known-name rule applies to every source,
including ols-typed ones. -/
def claimedPublicRule (s : SourceRec) : Bool :=
  let policy := s.securityPolicy.getD {}
  let nd := normalizedQueryDomains policy
  policy.isPublic.getD false
    || (nd.contains "*" || nd.contains "public")
    || (sourceEffectiveType s = "ols" && !(policy.isPublic == some false))
    || normalizeSourceName s.name = "wikidata"

/-- The amended public-classification rule: the well-known-name fallback only
applies to sources whose effective type is not the default-public adapter
kind (`ols`); for ols sources the `is_public`-not-explicitly-false rule is
decisive. -/
def amendedPublicRule (s : SourceRec) : Bool :=
  let policy := s.securityPolicy.getD {}
  let nd := normalizedQueryDomains policy
  policy.isPublic.getD false
    || (nd.contains "*" || nd.contains "public")
    || (sourceEffectiveType s = "ols" && !(policy.isPublic == some false))
    || (sourceEffectiveType s ≠ "ols" && normalizeSourceName s.name = "wikidata")

/-- An ols-typed source named `wikidata` whose policy explicitly sets
`is_public = false`: the code classifies it private, the claimed flat rule
classifies it public. -/
def olsWikidataRec : SourceRec :=
  { name := "wikidata"
    typeF := some "ols"
    securityPolicy := some { isPublic := some false } }

/-- C4 counterexample: the claimed iff fails on an ols-typed source named
`wikidata` with `is_public` explicitly false — the code classifies it
private while the claim classifies it public. -/
theorem c4_public_rule_counterexample :
    isPublicSourceRecord olsWikidataRec = false ∧
    claimedPublicRule olsWikidataRec = true := by
  constructor <;> decide

/-- C4 (amended): a source is classified public iff its policy marks
`is_public` true, or its normalized query-domain list contains `*` or
`public`, or its effective type is `ols` and `is_public` is not explicitly
false, or its effective type is not `ols` and its normalized name is
`wikidata`. -/
theorem c4_public_rule_amended (s : SourceRec) :
    isPublicSourceRecord s = amendedPublicRule s := by
  unfold isPublicSourceRecord amendedPublicRule
  by_cases h1 : (s.securityPolicy.getD {}).isPublic.getD false
  · simp [h1]
  · by_cases h3 : sourceEffectiveType s = "ols" <;>
      by_cases h2 :
        ((normalizedQueryDomains (s.securityPolicy.getD {})).contains "*"
          || (normalizedQueryDomains (s.securityPolicy.getD {})).contains "public") <;>
      simp_all

/-- Membership in a stable insertion. -/
theorem mem_insertStable (le : α → α → Bool) (a x : α) :
    ∀ l : List α, x ∈ insertStable le a l ↔ x = a ∨ x ∈ l
  | [] => by simp [insertStable]
  | b :: t => by
    unfold insertStable
    by_cases h : le b a = true
    · rw [if_pos h]
      simp only [List.mem_cons, mem_insertStable le a x t]
      tauto
    · rw [if_neg h]
      simp only [List.mem_cons]

/-- Stable insertion preserves sortedness for a total transitive comparator. -/
theorem pairwise_insertStable (le : α → α → Bool)
    (htrans : ∀ a b c, le a b = true → le b c = true → le a c = true)
    (htot : ∀ a b, (le a b || le b a) = true) (a : α) :
    ∀ l : List α, l.Pairwise (fun x y => le x y = true) →
      (insertStable le a l).Pairwise (fun x y => le x y = true)
  | [], _ => by simp [insertStable]
  | b :: t, h => by
    rcases List.pairwise_cons.mp h with ⟨hb, ht⟩
    unfold insertStable
    by_cases hba : le b a
    · simp only [hba, if_pos]
      refine List.pairwise_cons.mpr ⟨?_, pairwise_insertStable le htrans htot a t ht⟩
      intro x hx
      rcases (mem_insertStable le a x t).mp hx with rfl | hxt
      · exact hba
      · exact hb x hxt
    · simp only [hba, if_neg]
      have hab : le a b = true := by
        have := htot b a
        simp [hba] at this
        exact this
      refine List.pairwise_cons.mpr ⟨?_, h⟩
      intro x hx
      rcases List.mem_cons.mp hx with rfl | hxt
      · exact hab
      · exact htrans a b x hab (hb x hxt)

/-- The stable sort produces a list sorted by the comparator. -/
theorem pairwise_sortStableBy (le : α → α → Bool)
    (htrans : ∀ a b c, le a b = true → le b c = true → le a c = true)
    (htot : ∀ a b, (le a b || le b a) = true) (l : List α) :
    (sortStableBy le l).Pairwise (fun x y => le x y = true) := by
  unfold sortStableBy
  suffices h : ∀ (l : List α) (acc : List α),
      acc.Pairwise (fun x y => le x y = true) →
      (l.foldl (fun acc x => insertStable le x acc) acc).Pairwise
        (fun x y => le x y = true) from
    h l [] (by simp)
  intro l
  induction l with
  | nil => intro acc hacc; simpa using hacc
  | cons x t ih =>
    intro acc hacc
    exact ih (insertStable le x acc) (pairwise_insertStable le htrans htot x acc hacc)

/-- String comparison is total. -/
theorem listLexLe_total : ∀ a b : List Char, (listLexLe a b || listLexLe b a) = true
  | [], _ => by simp [listLexLe]
  | _ :: _, [] => by simp [listLexLe]
  | a :: as, b :: bs => by
    unfold listLexLe
    rcases Nat.lt_trichotomy a.toNat b.toNat with h | h | h
    · simp [h]
    · simp [h, Nat.lt_irrefl, listLexLe_total as bs]
    · simp [h, Nat.lt_asymm h]

/-- String comparison is transitive. -/
theorem listLexLe_trans : ∀ a b c : List Char,
    listLexLe a b = true → listLexLe b c = true → listLexLe a c = true
  | [], _, _ => by simp [listLexLe]
  | _ :: _, [], _ => by simp [listLexLe]
  | _ :: _, _ :: _, [] => by simp [listLexLe]
  | a :: as, b :: bs, c :: cs => by
    intro h1 h2
    unfold listLexLe at h1 h2 ⊢
    rcases Nat.lt_trichotomy a.toNat b.toNat with hab | hab | hab
    · rcases Nat.lt_trichotomy b.toNat c.toNat with hbc | hbc | hbc
      · rw [if_pos (Nat.lt_trans hab hbc)]
      · rw [if_pos (hbc ▸ hab)]
      · rw [if_neg (Nat.lt_asymm hbc), if_pos hbc] at h2
        exact absurd h2 (by simp)
    · rw [if_neg (hab ▸ Nat.lt_irrefl _), if_neg (hab ▸ Nat.lt_irrefl _)] at h1
      rcases Nat.lt_trichotomy b.toNat c.toNat with hbc | hbc | hbc
      · rw [if_pos (hab.symm ▸ hbc)]
      · rw [if_neg (hab ▸ hbc ▸ Nat.lt_irrefl _), if_neg (hab ▸ hbc ▸ Nat.lt_irrefl _)]
        rw [if_neg (hbc ▸ Nat.lt_irrefl _), if_neg (hbc ▸ Nat.lt_irrefl _)] at h2
        exact listLexLe_trans as bs cs h1 h2
      · rw [if_neg (Nat.lt_asymm hbc), if_pos hbc] at h2
        exact absurd h2 (by simp)
    · rw [if_neg (Nat.lt_asymm hab), if_pos hab] at h1
      exact absurd h1 (by simp)

theorem strLeB_total (a b : String) : (strLeB a b || strLeB b a) = true :=
  listLexLe_total a.data b.data

theorem strLeB_trans (a b c : String) :
    strLeB a b = true → strLeB b c = true → strLeB a c = true :=
  listLexLe_trans a.data b.data c.data

/-- Case-insensitive match of `^\s*<kw>\b` at the start of `q`, the regex
shape used by `_is_sparql_query` and `_is_sql_select` (main.py:97-102);
`kw` is a lowercase keyword. -/
def reMatchKeyword (q kw : String) : Bool :=
  let cs := q.data.dropWhile isPySpace
  ((cs.take kw.data.length).map Char.toLower == kw.data) &&
    (match cs.drop kw.data.length with
     | [] => true
     | c :: _ => !(isWordChar c))

/-- Embeds `_is_sparql_query` (main.py:97-98). -/
def isSparqlQuery (q : String) : Bool :=
  reMatchKeyword q "prefix" || reMatchKeyword q "select" || reMatchKeyword q "ask"
    || reMatchKeyword q "construct" || reMatchKeyword q "describe"

/-- Embeds `_is_sql_select` (main.py:101-102). -/
def isSqlSelect (q : String) : Bool :=
  reMatchKeyword q "select" && !(strContainsChar q ';')

/-- Embeds `_to_term_from_pattern` (main.py:105-106):
`re.sub(r"[%*_]", "", str(pattern or "").strip().lower())`. -/
def toTermFromPattern (pattern : String) : String :=
  String.mk ((strLower (pyStrip pattern)).data.filter
    (fun c => !(c = '%' || c = '*' || c = '_')))

/-- Embeds `_query_mentions_admin_term` (main.py:109-115). -/
def queryMentionsAdminTerm (queryText : String) (terms : List String) : Bool :=
  let lowered := strLower queryText
  terms.any (fun term =>
    let normalized := strLower (pyStrip term)
    normalized ≠ "" && strContainsSub lowered normalized)

/-- Outcome of the django_db query handler up to its outbound call:
either the request is rejected with an error envelope before any network
activity, or the handler reaches the backend call with the given SQL. -/
inductive DjangoDbOutcome
  | rejected (error detail : String)
  | backendCall (sql : String)
deriving Repr, DecidableEq

/-- Embeds the guard portion of `query_django_db` (main.py:435-467): the
handler posts to the Django SQL endpoint only after `_is_sql_select` passes. -/
def queryDjangoDb (sql : String) : DjangoDbOutcome :=
  if !(isSqlSelect sql) then
    .rejected "Unsupported query" "Only single SELECT SQL is supported for django_db"
  else .backendCall sql

/-- Claim-side reading of "begins with SELECT (case-insensitive, after
optional leading whitespace)". -/
def beginsWithSelectCI (q : String) : Bool :=
  ((q.data.dropWhile isPySpace).take ("select".data.length)).map Char.toLower
    == "select".data

/-- C6: the relational-internal backend accepts a query only if it begins
with SELECT (case-insensitively, after optional leading whitespace) and
contains no semicolon; the stacked-statement injection string is rejected
with the unsupported-query error envelope and never reaches the backend
call. -/
theorem c6_django_db_single_select_only :
    (∀ sql : String, (∃ s, queryDjangoDb sql = .backendCall s) →
      beginsWithSelectCI sql = true ∧ strContainsChar sql ';' = false) ∧
    queryDjangoDb "SELECT * FROM users; DROP TABLE users;" =
      .rejected "Unsupported query" "Only single SELECT SQL is supported for django_db" := by
  constructor
  · intro sql ⟨s, h⟩
    unfold queryDjangoDb at h
    by_cases hsel : isSqlSelect sql = true
    · have h1 := hsel
      unfold isSqlSelect reMatchKeyword at h1
      simp only [Bool.and_eq_true, Bool.not_eq_true'] at h1
      exact ⟨h1.1.1, h1.2⟩
    · rw [if_pos (by simp [hsel])] at h
      exact absurd h (by simp)
  · decide

/-- C6 witness: a plain single-statement SELECT reaches the backend call and
indeed begins with SELECT and has no semicolon. -/
theorem c6_django_db_single_select_only_witness :
    beginsWithSelectCI "select 1" = true ∧ strContainsChar "select 1" ';' = false :=
  c6_django_db_single_select_only.1 "select 1" ⟨"select 1", by decide⟩

/-- Dictionary lookup in a connection-config object. -/
def cfgGet (cc : List (String × String)) (k : String) : Option String :=
  (cc.find? (fun p => p.1 = k)).map (fun p => p.2)

/-- Python `str.rstrip("/")`. -/
def rstripSlash (s : String) : String :=
  String.mk ((s.data.reverse.dropWhile (fun c => c = '/')).reverse)

/-- Python `str.endswith(suffix)`. -/
def endsWithStr (s suffix : String) : Bool :=
  suffix.data.reverse.isPrefixOf s.data.reverse

/-- The Ontop SPARQL endpoint URL computed by `query_ontop` (main.py:603-612). -/
def ontopQueryUrl (src : SourceRec) : String :=
  let cc := src.connectionConfig
  let endpoint := pyOrD
    (pyOrO (cfgGet cc "endpoint") (pyOrO (cfgGet cc "endpoint_url") (cfgGet cc "api_url")))
    "http://ontop:8080/sparql"
  let queryUrl := rstripSlash endpoint
  if !(endsWithStr queryUrl "/sparql") && !(endsWithStr queryUrl "/query") then
    queryUrl ++ "/sparql"
  else queryUrl

/-- The admin-only term list of an Ontop source (main.py:587-594): the
directly declared `admin_only_sparql_terms` if non-empty, otherwise the
terms derived from `admin_only_table_patterns` by stripping wildcard
characters, dropping empty results. -/
def ontopAdminTerms (src : SourceRec) : List String :=
  let policy := src.securityPolicy.getD {}
  if !policy.adminOnlySparqlTerms.isEmpty then policy.adminOnlySparqlTerms
  else (policy.adminOnlyTablePatterns.map toTermFromPattern).filter (fun t => t ≠ "")

/-- Outcome of the Ontop query handler up to its outbound call. -/
inductive OntopOutcome
  | unsupported (error detail : String)
  | policyRestricted (error detail : String)
  | backendCall (url sparql : String)
deriving Repr, DecidableEq

/-- Embeds the pre-network portion of `query_ontop` (main.py:582-620): the
SPARQL shape check, then the admin-only-term policy gate, and only then the
outbound POST to the Ontop endpoint. -/
def queryOntop (sparql : String) (sourceData : SourceRec) : OntopOutcome :=
  if !(isSparqlQuery sparql) then
    .unsupported "Unsupported query" "Ontop expects SPARQL query text"
  else
    let terms := ontopAdminTerms sourceData
    if !terms.isEmpty && !sourceData.canAdmin && queryMentionsAdminTerm sparql terms then
      .policyRestricted "Ontop policy restriction"
        "This query targets admin-only mapped tables and requires datasource admin rights."
    else .backendCall (ontopQueryUrl sourceData) sparql

/-- C3: a SPARQL query against a virtual-rdf (ontop) source whose policy
declares admin-only terms (directly or derived from table patterns), issued
by a caller without admin rights on the source and mentioning such a term,
is answered with the policy-restriction error envelope and never reaches
the outbound backend call. -/
theorem c3_ontop_admin_term_pre_execution_guard (sparql : String) (src : SourceRec)
    (hq : isSparqlQuery sparql = true)
    (hterms : (ontopAdminTerms src).isEmpty = false)
    (hadmin : src.canAdmin = false)
    (hmention : queryMentionsAdminTerm sparql (ontopAdminTerms src) = true) :
    queryOntop sparql src =
      .policyRestricted "Ontop policy restriction"
        "This query targets admin-only mapped tables and requires datasource admin rights." ∧
    ∀ url q, queryOntop sparql src ≠ .backendCall url q := by
  have h : queryOntop sparql src =
      .policyRestricted "Ontop policy restriction"
        "This query targets admin-only mapped tables and requires datasource admin rights." := by
    unfold queryOntop
    rw [if_neg (by simp [hq])]
    rw [if_pos (by simp [hterms, hadmin, hmention])]
  exact ⟨h, fun url q hc => by rw [h] at hc; exact absurd hc (by simp)⟩

/-- A concrete Ontop source with a directly declared admin-only term and no
admin rights for the caller. -/
def ontopGuardedSrc : SourceRec :=
  { name := "ontop"
    typeF := some "ontop"
    securityPolicy := some { adminOnlySparqlTerms := ["secret_table"] }
    canAdmin := false }

/-- C3 witness: a concrete SPARQL query mentioning the admin-only term of a
concrete guarded source is rejected by the policy gate. -/
theorem c3_ontop_admin_term_pre_execution_guard_witness :
    queryOntop "SELECT secret_table" ontopGuardedSrc =
      .policyRestricted "Ontop policy restriction"
        "This query targets admin-only mapped tables and requires datasource admin rights." ∧
    ∀ url q, queryOntop "SELECT secret_table" ontopGuardedSrc ≠ .backendCall url q :=
  c3_ontop_admin_term_pre_execution_guard "SELECT secret_table" ontopGuardedSrc
    (by decide) (by decide) (by decide) (by decide)

/-- A parsed JSON value, as handled by the Django request bodies. -/
inductive JVal
  | jStr (s : String)
  | jNum (n : Int)
  | jBool (b : Bool)
  | jNull
  | jObj (fields : List (String × JVal))
  | jArr (elems : List JVal)
deriving Repr

/-- Python `payload.get(k)` on a parsed JSON object. -/
def pGet (payload : List (String × JVal)) (k : String) : Option JVal :=
  (payload.find? (fun q => q.1 = k)).map (fun q => q.2)

/-- Python `str(v)` on a JSON value; compound values render with brackets,
which never pass the identifier or operation checks, matching CPython. -/
def pyStr : JVal → String
  | .jStr s => s
  | .jNum n => toString n
  | .jBool true => "True"
  | .jBool false => "False"
  | .jNull => "None"
  | .jObj _ => "\x7b...\x7d"
  | .jArr _ => "[...]"

/-- `re.fullmatch(r'[A-Za-z_][A-Za-z0-9_]*', s)` (api_views.py:431). -/
def matchesIdent (s : String) : Bool :=
  match s.data with
  | [] => false
  | c :: rest => (c.isAlpha || c = '_') && rest.all (fun d => d.isAlphanum || d = '_')

/-- A Django auth user as seen by the write-back endpoints. -/
structure DjUser where
  uid : Int
  isSuperuser : Bool
deriving Repr, DecidableEq

/-- A `DataSourcePermission` row. -/
structure DjPermission where
  dataSourceId : Int
  userId : Int
  permission : String
deriving Repr, DecidableEq

/-- A `DataSource` row, restricted to the fields the write-back endpoints read. -/
structure DjDataSource where
  dsId : Int
  name : String
  isActive : Bool
  allowWriteBack : Bool
deriving Repr, DecidableEq

/-- The Django database state consulted by the write-back endpoints. -/
structure DjDb where
  sources : List DjDataSource
  perms : List DjPermission
deriving Repr, DecidableEq

/-- The `write_back`/`admin` permission check of `create_write_back_request`
(api_views.py:447-454), with the superuser override. -/
def hasWriteBackPermission (db : DjDb) (user : DjUser) (s : DjDataSource) : Bool :=
  user.isSuperuser || db.perms.any (fun q =>
    q.dataSourceId == s.dsId && q.userId == user.uid &&
      (q.permission == "write_back" || q.permission == "admin"))

/-- `isinstance(v, dict)` on an optional JSON value. -/
def isJObjOpt : Option JVal → Bool
  | some (.jObj _) => true
  | _ => false

/-- The `old_values` check (api_views.py:435): absent or JSON-null is fine,
otherwise the value must be an object. -/
def oldValuesOk : Option JVal → Bool
  | none => true
  | some .jNull => true
  | some (.jObj _) => true
  | _ => false

/-- `DataSource.objects.get(pk=payload['source_id'], is_active=True)` key
comparison: the payload value must be the numeric id of the row. -/
def sourceIdMatches : Option JVal → Int → Bool
  | some (.jNum n), i => n == i
  | _, _ => false

/-- The normalized operation string (api_views.py:427):
`str(payload.get('operation', '')).strip().lower()`. -/
def wbOperationOf (p : List (String × JVal)) : String :=
  strLower (pyStrip (pyStr ((pGet p "operation").getD (.jStr ""))))

/-- The stripped table name (api_views.py:430):
`str(payload.get('table_name', '')).strip()`. -/
def wbTableOf (p : List (String × JVal)) : String :=
  pyStrip (pyStr ((pGet p "table_name").getD (.jStr "")))

/-- The missing-required-fields list (api_views.py:420-421). -/
def wbMissingOf (p : List (String × JVal)) : List String :=
  ["source_id", "operation", "table_name", "new_values"].filter
    (fun f => (pGet p f).isNone)

/-- The active data source addressed by the payload (api_views.py:438-441). -/
def wbSourceOf (db : DjDb) (p : List (String × JVal)) : Option DjDataSource :=
  db.sources.find? (fun s => sourceIdMatches (pGet p "source_id") s.dsId && s.isActive)

/-- The `WriteBackRequest` row created on success (api_views.py:458-467). -/
structure WBNewRequest where
  dataSourceId : Int
  requestedBy : Int
  operation : String
  tableName : String
  primaryKey : JVal
  oldValues : Option JVal
  newValues : JVal
  status : String
deriving Repr

/-- Outcome of `create_write_back_request`. -/
inductive WBCreateOutcome
  | err (status : Nat) (msg : String)
  | created (req : WBNewRequest)
deriving Repr

/-- Embeds `create_write_back_request` (api_views.py:413-480). -/
def createWriteBackRequest (db : DjDb) (user : DjUser)
    (p : List (String × JVal)) : WBCreateOutcome :=
  if !(wbMissingOf p).isEmpty then
    .err 400 ("Missing required fields: " ++ String.intercalate ", " (wbMissingOf p))
  else if !(wbOperationOf p == "insert" || wbOperationOf p == "update"
      || wbOperationOf p == "delete") then
    .err 400 "Invalid operation"
  else if !(matchesIdent (wbTableOf p)) then
    .err 400 "Invalid table_name"
  else if !(isJObjOpt (pGet p "new_values")) then
    .err 400 "new_values must be an object"
  else if !(oldValuesOk (pGet p "old_values")) then
    .err 400 "old_values must be an object"
  else
    match wbSourceOf db p with
    | none => .err 404 "Data source not found"
    | some source =>
      if !source.allowWriteBack then
        .err 403 "Write-back not enabled for this source"
      else if !(hasWriteBackPermission db user source) then
        .err 403 "Permission denied"
      else
        .created
          { dataSourceId := source.dsId
            requestedBy := user.uid
            operation := wbOperationOf p
            tableName := wbTableOf p
            primaryKey := (pGet p "primary_key").getD (.jStr "")
            oldValues := pGet p "old_values"
            newValues := (pGet p "new_values").getD .jNull
            status := "pending" }

/-- Whether a create outcome is a successful creation. -/
def isCreatedWB : WBCreateOutcome → Bool
  | .created _ => true
  | _ => false

/-- The conditions claim C8 places on a successful creation: required fields
present, operation one of insert/update/delete, table name matching the
identifier pattern, `new_values` a map, `old_values` absent or a map, and an
active target source with write-back enabled on which the caller is
superuser or holds `write_back`/`admin`. -/
def C8Conditions (db : DjDb) (user : DjUser) (p : List (String × JVal)) : Prop :=
  (["source_id", "operation", "table_name", "new_values"].all
      (fun f => (pGet p f).isSome)) = true
  ∧ wbOperationOf p ∈ (["insert", "update", "delete"] : List String)
  ∧ matchesIdent (wbTableOf p) = true
  ∧ isJObjOpt (pGet p "new_values") = true
  ∧ oldValuesOk (pGet p "old_values") = true
  ∧ ∃ source, wbSourceOf db p = some source ∧ source.allowWriteBack = true
      ∧ hasWriteBackPermission db user source = true

/-- Filtering by a predicate leaves nothing iff the negation holds everywhere. -/
theorem isEmpty_filter_eq_all (l : List α) (q : α → Bool) :
    (l.filter q).isEmpty = l.all (fun a => !(q a)) := by
  induction l with
  | nil => rfl
  | cons a t ih => by_cases h : q a = true <;> simp [List.filter_cons, h, ih]

/-- A creation succeeds exactly when all C8 conditions hold. -/
theorem c8_created_iff (db : DjDb) (user : DjUser) (p : List (String × JVal)) :
    isCreatedWB (createWriteBackRequest db user p) = true ↔ C8Conditions db user p := by
  have hopt : ∀ o : Option JVal, (!o.isNone) = o.isSome := fun o => by cases o <;> rfl
  have hmiss : (wbMissingOf p).isEmpty =
      (["source_id", "operation", "table_name", "new_values"].all
        fun f => (pGet p f).isSome) := by
    rw [wbMissingOf, isEmpty_filter_eq_all]
    simp only [hopt]
  unfold createWriteBackRequest C8Conditions
  cases h1 : (wbMissingOf p).isEmpty with
  | false =>
    simp only [Bool.not_false, if_true, isCreatedWB]
    constructor
    · intro h; cases h
    · rintro ⟨hall, -⟩
      rw [← hmiss, h1] at hall
      cases hall
  | true =>
    simp only [Bool.not_true, Bool.false_eq_true, if_false]
    cases h2 : (wbOperationOf p == "insert" || wbOperationOf p == "update"
        || wbOperationOf p == "delete") with
    | false =>
      simp only [Bool.not_false, if_true, isCreatedWB]
      constructor
      · intro h; cases h
      · rintro ⟨-, hop, -⟩
        have hb : (wbOperationOf p == "insert" || wbOperationOf p == "update"
            || wbOperationOf p == "delete") = true := by
          simp only [Bool.or_eq_true, beq_iff_eq, or_assoc]
          simpa using hop
        rw [h2] at hb; cases hb
    | true =>
      simp only [Bool.not_true, Bool.false_eq_true, if_false]
      cases h3 : matchesIdent (wbTableOf p) with
      | false =>
        simp only [Bool.not_false, if_true, isCreatedWB]
        constructor
        · intro h; cases h
        · rintro ⟨-, -, htab, -⟩
          cases htab
      | true =>
        simp only [Bool.not_true, Bool.false_eq_true, if_false]
        cases h4 : isJObjOpt (pGet p "new_values") with
        | false =>
          simp only [Bool.not_false, if_true, isCreatedWB]
          constructor
          · intro h; cases h
          · rintro ⟨-, -, -, hnew, -⟩
            cases hnew
        | true =>
          simp only [Bool.not_true, Bool.false_eq_true, if_false]
          cases h5 : oldValuesOk (pGet p "old_values") with
          | false =>
            simp only [Bool.not_false, if_true, isCreatedWB]
            constructor
            · intro h; cases h
            · rintro ⟨-, -, -, -, hold, -⟩
              cases hold
          | true =>
            simp only [Bool.not_true, Bool.false_eq_true, if_false]
            cases hs : wbSourceOf db p with
            | none =>
              simp only [isCreatedWB]
              constructor
              · intro h; cases h
              · rintro ⟨-, -, -, -, -, s, hss, -⟩
                cases hss
            | some source =>
              cases h6 : source.allowWriteBack with
              | false =>
                simp only [h6, Bool.not_false, if_true, isCreatedWB]
                constructor
                · intro h; cases h
                · rintro ⟨-, -, -, -, -, s, hss, hwb, -⟩
                  cases hss
                  rw [h6] at hwb; cases hwb
              | true =>
                simp only [h6, Bool.not_true, Bool.false_eq_true, if_false]
                cases h7 : hasWriteBackPermission db user source with
                | false =>
                  simp only [Bool.not_false, if_true, isCreatedWB]
                  constructor
                  · intro h; cases h
                  · rintro ⟨-, -, -, -, -, s, hss, -, hperm⟩
                    cases hss
                    rw [h7] at hperm; cases hperm
                | true =>
                  simp only [Bool.not_true, Bool.false_eq_true, if_false, isCreatedWB]
                  constructor
                  · intro _
                    refine ⟨hmiss.symm.trans h1, ?_, trivial, trivial, trivial,
                      source, rfl, h6, h7⟩
                    have hb := h2
                    simp only [Bool.or_eq_true, beq_iff_eq, or_assoc] at hb
                    simpa using hb
                  · intro _; trivial

/-- Any successfully created write-back request starts in `pending`. -/
theorem c8_created_pending (db : DjDb) (user : DjUser) (p : List (String × JVal))
    (r : WBNewRequest) :
    createWriteBackRequest db user p = .created r → r.status = "pending" := by
  intro hr
  unfold createWriteBackRequest at hr
  cases h1 : (wbMissingOf p).isEmpty <;>
    simp only [h1, Bool.not_false, Bool.not_true, Bool.false_eq_true, if_true, if_false] at hr
  · exact WBCreateOutcome.noConfusion hr
  cases h2 : (wbOperationOf p == "insert" || wbOperationOf p == "update"
      || wbOperationOf p == "delete") <;>
    simp only [h2, Bool.not_false, Bool.not_true, Bool.false_eq_true, if_true, if_false] at hr
  · exact WBCreateOutcome.noConfusion hr
  cases h3 : matchesIdent (wbTableOf p) <;>
    simp only [h3, Bool.not_false, Bool.not_true, Bool.false_eq_true, if_true, if_false] at hr
  · exact WBCreateOutcome.noConfusion hr
  cases h4 : isJObjOpt (pGet p "new_values") <;>
    simp only [h4, Bool.not_false, Bool.not_true, Bool.false_eq_true, if_true, if_false] at hr
  · exact WBCreateOutcome.noConfusion hr
  cases h5 : oldValuesOk (pGet p "old_values") <;>
    simp only [h5, Bool.not_false, Bool.not_true, Bool.false_eq_true, if_true, if_false] at hr
  · exact WBCreateOutcome.noConfusion hr
  cases hs : wbSourceOf db p <;> rw [hs] at hr
  · exact WBCreateOutcome.noConfusion hr
  case some source =>
    cases h6 : source.allowWriteBack <;>
      simp only [h6, Bool.not_false, Bool.not_true, Bool.false_eq_true, if_true, if_false] at hr
    · exact WBCreateOutcome.noConfusion hr
    cases h7 : hasWriteBackPermission db user source <;>
      simp only [h7, Bool.not_false, Bool.not_true, Bool.false_eq_true, if_true, if_false] at hr
    · exact WBCreateOutcome.noConfusion hr
    cases hr
    rfl

/-- C8: a write-back creation succeeds — producing a `pending` request — iff
the required fields are present, the normalized operation is one of
insert/update/delete, the stripped table name matches the identifier
pattern, `new_values` is a field-to-value map, `old_values` (if present) is
a map, and the target source is active with write-back enabled and the
caller superuser or holder of `write_back`/`admin` on it; violating any
condition yields an error and no request. -/
theorem c8_write_back_create_validation (db : DjDb) (user : DjUser)
    (p : List (String × JVal)) :
    (isCreatedWB (createWriteBackRequest db user p) = true ↔ C8Conditions db user p) ∧
    (∀ r, createWriteBackRequest db user p = .created r → r.status = "pending") :=
  ⟨c8_created_iff db user p, fun r => c8_created_pending db user p r⟩

/-- A concrete Django state for exercising the write-back workflow. -/
def c8Db : DjDb :=
  { sources := [{ dsId := 1, name := "crops", isActive := true, allowWriteBack := true }]
    perms := [] }

/-- A concrete superuser. -/
def c8User : DjUser := { uid := 7, isSuperuser := true }

/-- A concrete valid creation payload. -/
def c8Payload : List (String × JVal) :=
  [("source_id", .jNum 1), ("operation", .jStr "insert"),
   ("table_name", .jStr "crops"), ("new_values", .jObj [("name", .jStr "maize")])]

/-- The request row the concrete payload creates. -/
def c8WitnessRequest : WBNewRequest :=
  { dataSourceId := 1
    requestedBy := 7
    operation := "insert"
    tableName := "crops"
    primaryKey := .jStr ""
    oldValues := none
    newValues := .jObj [("name", .jStr "maize")]
    status := "pending" }

/-- C8 witness: the concrete valid payload creates a request and that
request is in `pending`. -/
theorem c8_write_back_create_validation_witness :
    c8WitnessRequest.status = "pending" :=
  (c8_write_back_create_validation c8Db c8User c8Payload).2 c8WitnessRequest (by rfl)

/-- A `WriteBackRequest` row as read by the approval endpoint. -/
structure WBRequestRow where
  rid : Int
  dataSourceId : Int
  status : String
  rejectionReason : String
deriving Repr, DecidableEq

/-- The parsed body of an approval call (`action`, `reason`). -/
structure ApprovePayload where
  action : Option String := none
  reason : Option String := none
deriving Repr, DecidableEq

/-- Outcome of `approve_write_back_request`. -/
inductive ApproveOutcome
  | err (status : Nat) (msg : String)
  | ok (updated : WBRequestRow)
deriving Repr, DecidableEq

/-- The `admin` permission check used by the approval endpoint
(api_views.py:571-575), with the superuser override. -/
def hasAdminPermission (db : DjDb) (user : DjUser) (dataSourceId : Int) : Bool :=
  user.isSuperuser || db.perms.any (fun q =>
    q.dataSourceId == dataSourceId && q.userId == user.uid && q.permission == "admin")

/-- `(payload.get('action') or 'approve').lower()` (api_views.py:580). -/
def effectiveAction (payload : ApprovePayload) : String :=
  strLower (pyOrD payload.action "approve")

/-- Embeds `approve_write_back_request` (api_views.py:563-606):
permission check, then the `{pending, approved}` status gate, then the
reject/approve transition. -/
def approveWriteBackRequest (db : DjDb) (user : DjUser)
    (reqOpt : Option WBRequestRow) (payload : ApprovePayload) : ApproveOutcome :=
  match reqOpt with
  | none => .err 404 "Request not found"
  | some req =>
    if !(hasAdminPermission db user req.dataSourceId) then
      .err 403 "Permission denied"
    else if !(req.status == "pending" || req.status == "approved") then
      .err 400 ("Cannot process request in status " ++ req.status)
    else if effectiveAction payload == "reject" then
      .ok { req with
            status := "rejected"
            rejectionReason := payload.reason.getD "Rejected by approver" }
    else
      .ok { req with status := "approved", rejectionReason := "" }

/-- A request already in `approved`. -/
def c2ApprovedReq : WBRequestRow :=
  { rid := 3, dataSourceId := 1, status := "approved", rejectionReason := "" }

/-- C2 counterexample: an already-`approved` request is moved to `rejected`
by a plain reject call — no new request is needed, contradicting the
claimed monotonicity. -/
theorem c2_status_transition_counterexample :
    c2ApprovedReq.status = "approved" ∧
    approveWriteBackRequest c8Db c8User (some c2ApprovedReq)
        { action := some "reject", reason := some "stale" } =
      .ok { rid := 3, dataSourceId := 1, status := "rejected",
            rejectionReason := "stale" } := by
  constructor
  · rfl
  · decide

/-- C2 (amended): for a caller holding admin on the request's source,
a `pending` or `approved` request transitions to exactly the single status
determined by the action (`rejected` on reject, else `approved`); a
`rejected` request is terminal; and any status outside
`{pending, approved}` fails with an HTTP 400 error naming the current
status. -/
theorem c2_status_transitions_amended (db : DjDb) (user : DjUser)
    (req : WBRequestRow) (payload : ApprovePayload)
    (hadmin : hasAdminPermission db user req.dataSourceId = true) :
    ((req.status = "pending" ∨ req.status = "approved") →
      approveWriteBackRequest db user (some req) payload =
        .ok { req with
              status := if effectiveAction payload == "reject"
                then "rejected" else "approved"
              rejectionReason := if effectiveAction payload == "reject"
                then payload.reason.getD "Rejected by approver" else "" }) ∧
    (req.status = "rejected" →
      approveWriteBackRequest db user (some req) payload =
        .err 400 ("Cannot process request in status " ++ req.status)) ∧
    ((req.status ≠ "pending" ∧ req.status ≠ "approved") →
      approveWriteBackRequest db user (some req) payload =
        .err 400 ("Cannot process request in status " ++ req.status)) := by
  simp only [approveWriteBackRequest]
  rw [if_neg (by simp [hadmin])]
  refine ⟨?_, ?_, ?_⟩
  · intro hst
    rw [if_neg (by rcases hst with h | h <;> simp [h])]
    by_cases ha : (effectiveAction payload == "reject") = true
    · simp [ha]
    · simp [ha]
  · intro hst
    rw [if_pos (by simp [hst])]
  · rintro ⟨h1, h2⟩
    rw [if_pos (by simp [h1, h2])]

/-- C2 amended-claim witness: a concrete `pending` request approved by a
superuser with the default action lands in `approved`. -/
theorem c2_status_transitions_amended_witness :
    approveWriteBackRequest c8Db c8User
        (some { rid := 4, dataSourceId := 1, status := "pending",
                rejectionReason := "" }) {} =
      .ok { rid := 4, dataSourceId := 1, status := "approved",
            rejectionReason := "" } := by
  have h := (c2_status_transitions_amended c8Db c8User
    { rid := 4, dataSourceId := 1, status := "pending", rejectionReason := "" }
    {} (by decide)).1 (Or.inl rfl)
  rw [h]
  decide

/-- An HTTP error raised by a FastAPI handler (`HTTPException`). -/
structure HttpError where
  status : Nat
  detail : String
deriving Repr, DecidableEq

/-- The identity payload produced by token validation. -/
structure UserPayload where
  userId : Int
  username : String
deriving Repr, DecidableEq

/-- The normalized explicit source list (main.py:754-759): keep entries that
are truthy and non-blank, then case/space-normalize them. -/
def normalizeRequested (rs : List String) : List String :=
  (rs.filter (fun s => s ≠ "" && pyStrip s ≠ "")).map normalizeSourceName

/-- The public source-name list an anonymous caller resolves against
(main.py:764-771): normalized names of public candidates, dropping empties. -/
def anonymousPublicNames (candidates : List SourceRec) : List String :=
  ((candidates.filter isPublicSourceRecord).map
    (fun s => normalizeSourceName s.name)).filter (fun n => n ≠ "")

/-- The accessible source-name set of an authenticated caller
(main.py:786-790): normalized names of named accessible records. -/
def accessibleNamesOf (accessible : List SourceRec) : List String :=
  dedupStr ((accessible.filter (fun s => s.name ≠ "")).map
    (fun s => normalizeSourceName s.name))

/-- Embeds `_resolve_sources_for_request` (main.py:747-798) as a pure
function of the resolved caller and of the record-store responses for the
anonymous (`anonSources`) and authenticated (`userSources`) fetches.  The
adapter-registry side effect does not affect the returned value and is modelled
separately for the registry claims. -/
def resolveSourcesForRequest (user : Option UserPayload)
    (anonSources userSources : List SourceRec)
    (requestedSources : Option (List String)) : Except HttpError (List String) :=
  let normalizedRequested : Option (List String) :=
    match requestedSources with
    | none => none
    | some rs => if rs.isEmpty then none else some (normalizeRequested rs)
  match user with
  | none =>
    let publicSources := anonymousPublicNames anonSources
    match normalizedRequested with
    | some lst =>
      let forbidden := lst.filter (fun s => !(publicSources.contains s))
      if !forbidden.isEmpty then
        .error ⟨401, "Authentication required for sources: "
          ++ String.intercalate ", " forbidden⟩
      else .ok (lst.filter (fun s => publicSources.contains s))
    | none => .ok (sortStrings (dedupStr publicSources))
  | some _ =>
    let accessibleNames := accessibleNamesOf userSources
    match normalizedRequested with
    | some lst =>
      let forbidden := lst.filter (fun s => !(accessibleNames.contains s))
      if !forbidden.isEmpty then
        .error ⟨403, "Access denied for sources: "
          ++ String.intercalate ", " forbidden⟩
      else .ok (lst.filter (fun s => accessibleNames.contains s))
    | none => .ok (sortStrings accessibleNames)

/-- The offending entries of an explicit request: normalized requested names
outside the caller's accessible set. -/
def requestForbidden (user : Option UserPayload)
    (anonSources userSources : List SourceRec) (rs : List String) : List String :=
  let accessible := match user with
    | none => anonymousPublicNames anonSources
    | some _ => accessibleNamesOf userSources
  (normalizeRequested rs).filter (fun s => !(accessible.contains s))

/-- The authorization status claim C1 prescribes, modelled from the claim's
words: 401 when the caller is anonymous and at least one offending source
would be visible to an authenticated caller (that is, some record in the
store bears that normalized name), else 403. -/
def claimedAuthStatus (anonymous : Bool) (allRecords : List SourceRec)
    (offending : List String) : Nat :=
  if anonymous && offending.any (fun o =>
      allRecords.any (fun s => normalizeSourceName s.name == o)) then 401
  else 403

/-- C1 counterexample: an anonymous request for a name that no record in the
store bears (so it would not be visible to any authenticated caller) is
rejected with status 401 by the code, while the claim prescribes 403 for
this case. -/
theorem c1_auth_status_counterexample :
    resolveSourcesForRequest none [] [] (some ["ghost"]) =
      .error ⟨401, "Authentication required for sources: ghost"⟩ ∧
    claimedAuthStatus true [] ["ghost"] = 403 := by
  constructor <;> rfl

/-- C1 (amended): whenever an explicit request carries at least one
offending source, resolution fails with a single authorization error whose
detail lists every offending source, and the status is 401 exactly when the
caller is anonymous (403 when authenticated), regardless of whether the
offending names would be visible to an authenticated caller. -/
theorem c1_explicit_source_validation_amended (user : Option UserPayload)
    (anonSources userSources : List SourceRec) (rs : List String)
    (hne : rs.isEmpty = false)
    (hfb : (requestForbidden user anonSources userSources rs).isEmpty = false) :
    resolveSourcesForRequest user anonSources userSources (some rs) =
      .error
        { status := match user with | none => 401 | some _ => 403
          detail :=
            (match user with
              | none => "Authentication required for sources: "
              | some _ => "Access denied for sources: ")
            ++ String.intercalate ", "
                (requestForbidden user anonSources userSources rs) } := by
  cases user with
  | none =>
    unfold requestForbidden at hfb
    simp only at hfb
    simp only [resolveSourcesForRequest, requestForbidden, hne, Bool.false_eq_true,
      if_false]
    rw [if_pos (by rw [hfb]; rfl)]
  | some u =>
    unfold requestForbidden at hfb
    simp only at hfb
    simp only [resolveSourcesForRequest, requestForbidden, hne, Bool.false_eq_true,
      if_false]
    rw [if_pos (by rw [hfb]; rfl)]

/-- C1 witness: the amended statement at a concrete anonymous request for an
inaccessible name. -/
theorem c1_explicit_source_validation_amended_witness :
    resolveSourcesForRequest none [] [] (some ["ghost"]) =
      .error
        { status := match (none : Option UserPayload) with | none => 401 | some _ => 403
          detail :=
            (match (none : Option UserPayload) with
              | none => "Authentication required for sources: "
              | some _ => "Access denied for sources: ")
            ++ String.intercalate ", " (requestForbidden none [] [] ["ghost"]) } :=
  c1_explicit_source_validation_amended none [] [] ["ghost"] (by decide) (by decide)

/-- Python `authorization.split(" ", 1)`: split at the first space, if any. -/
def splitOnceAtSpace : List Char → Option (List Char × List Char)
  | [] => none
  | c :: t =>
    if c = ' ' then some ([], t)
    else (splitOnceAtSpace t).map (fun q => (c :: q.1, q.2))

/-- Embeds `_extract_bearer_token` (main.py:64-70). -/
def extractBearerToken (authorization : Option String) : Option String :=
  match authorization with
  | none => none
  | some a =>
    if a = "" then none
    else
      match splitOnceAtSpace a.data with
      | none => none
      | some q =>
        if strLower (String.mk q.1) = "bearer" && pyStrip (String.mk q.2) ≠ "" then
          some (pyStrip (String.mk q.2))
        else none

/-- The feature flags of a capability snapshot (main.py:721-729). -/
structure FeatureFlags where
  canViewPublic : Bool
  canViewPrivate : Bool
  canSaveGraphs : Bool
  canShareGraphs : Bool
  canWriteBack : Bool
  canManageSources : Bool
deriving Repr, DecidableEq

/-- The capability snapshot returned by `/api/capabilities` (main.py:709-735). -/
structure CapabilitySnapshot where
  contractVersion : String
  authenticated : Bool
  mode : String
  user : Option UserPayload
  features : FeatureFlags
  publicSources : List String
  privateSources : List String
  accessibleSources : List String
deriving Repr, DecidableEq

/-- `PLUGIN_CONTRACT_VERSION` (main.py:31). -/
def pluginContractVersion : String := "2026-02-16"

/-- The snapshot assembly of `get_capabilities` (main.py:678-735), as a pure
function of the resolved caller and the accessible source records. -/
def capsFor (userPayload : Option UserPayload)
    (accessibleSources : List SourceRec) : CapabilitySnapshot :=
  let accessibleNames :=
    sortedUnique (accessibleSources.map (fun s => normalizeSourceName s.name))
  let publicNames :=
    sortedUnique ((accessibleSources.filter isPublicSourceRecord).map
      (fun s => normalizeSourceName s.name))
  let privateNames :=
    sortedUnique (accessibleNames.filter (fun n => !(publicNames.contains n)))
  let canWriteBack := accessibleSources.any
    (fun s => s.allowWriteBack && (s.canAdmin || s.canManage))
  let canManageSources := accessibleSources.any (fun s => s.canAdmin || s.canManage)
  let authenticated := userPayload.isSome
  { contractVersion := pluginContractVersion
    authenticated := authenticated
    mode := if authenticated then "integrated" else "demo"
    user := if authenticated then userPayload else none
    features :=
      { canViewPublic := true
        canViewPrivate := authenticated && !privateNames.isEmpty
        canSaveGraphs := authenticated
        canShareGraphs := authenticated
        canWriteBack := authenticated && canWriteBack
        canManageSources := authenticated && canManageSources }
    publicSources := publicNames
    privateSources := if authenticated then privateNames else []
    accessibleSources := if authenticated then accessibleNames else publicNames }

/-- Embeds `get_capabilities` (main.py:665-735), parameterized by the token
validator and the record-store fetch. -/
def getCapabilities (validate : String → Option UserPayload)
    (fetch : Option Int → List SourceRec) (authorization : Option String) :
    Except HttpError CapabilitySnapshot :=
  match extractBearerToken authorization with
  | some token =>
    match validate token with
    | none => .error ⟨401, "Invalid token"⟩
    | some u => .ok (capsFor (some u) (fetch (some u.userId)))
  | none => .ok (capsFor none (fetch none))

/-- C5: a capabilities request carrying no extractable bearer token gets a
demo-mode snapshot: unauthenticated, no user, empty private list,
accessible equal to public, and both management feature flags false. -/
theorem c5_anonymous_capabilities_demo (validate : String → Option UserPayload)
    (fetch : Option Int → List SourceRec) (authorization : Option String)
    (h : extractBearerToken authorization = none) :
    ∃ caps, getCapabilities validate fetch authorization = .ok caps ∧
      caps.mode = "demo" ∧ caps.authenticated = false ∧ caps.user = none ∧
      caps.privateSources = [] ∧ caps.accessibleSources = caps.publicSources ∧
      caps.features.canWriteBack = false ∧
      caps.features.canManageSources = false := by
  refine ⟨capsFor none (fetch none), ?_, rfl, rfl, rfl, rfl, rfl, rfl, rfl⟩
  simp only [getCapabilities, h]

/-- C5 witness: the theorem at the bare anonymous request against a
one-record store. -/
theorem c5_anonymous_capabilities_demo_witness :
    ∃ caps, getCapabilities (fun _ => none) (fun _ => [olsWikidataRec]) none
        = .ok caps ∧
      caps.mode = "demo" ∧ caps.authenticated = false ∧ caps.user = none ∧
      caps.privateSources = [] ∧ caps.accessibleSources = caps.publicSources ∧
      caps.features.canWriteBack = false ∧
      caps.features.canManageSources = false :=
  c5_anonymous_capabilities_demo (fun _ => none) (fun _ => [olsWikidataRec]) none rfl

/-- A ranked search result (the `QuickSearchResult` contract: label, id,
description, author tag, plus the numeric ranking fields read by the sort in
`search`, main.py:826).  Numeric scores are modelled as integers; the
handler only compares them, never combines them. -/
structure QuickSearchResult where
  label : String
  resultId : String
  description : String
  author : String
  confidence : Option Int
  relevanceScore : Option Int
deriving Repr, DecidableEq

/-- The sort key of `search` (main.py:826):
`(x.confidence or 0, x.relevance_score or 0)`. -/
def searchSortKey (r : QuickSearchResult) : Int × Int :=
  (r.confidence.getD 0, r.relevanceScore.getD 0)

/-- The comparator realizing Python `sort(key=..., reverse=True)`:
descending lexicographic order on the sort key. -/
def searchSortLe (a b : QuickSearchResult) : Bool :=
  decide ((searchSortKey b).1 < (searchSortKey a).1)
    || (decide ((searchSortKey b).1 = (searchSortKey a).1)
      && decide ((searchSortKey b).2 ≤ (searchSortKey a).2))

/-- The per-source fan-out loop of `search` (main.py:814-823): each source
is queried through its adapter and a failure contributes nothing. -/
def gatherResults
    (adapterSearch : String → Except String (List QuickSearchResult)) :
    List String → List QuickSearchResult
  | [] => []
  | s :: rest =>
    (match adapterSearch s with
     | .ok rs => rs
     | .error _ => []) ++ gatherResults adapterSearch rest

/-- The aggregation of `search` (main.py:814-827): gather, sort descending
by (confidence, relevance), truncate to the limit. -/
def searchAggregate
    (adapterSearch : String → Except String (List QuickSearchResult))
    (sources : List String) (limit : Nat) : List QuickSearchResult :=
  (sortStableBy searchSortLe (gatherResults adapterSearch sources)).take limit

theorem searchSortLe_total (a b : QuickSearchResult) :
    (searchSortLe a b || searchSortLe b a) = true := by
  unfold searchSortLe
  simp only [Bool.or_eq_true, Bool.and_eq_true, decide_eq_true_eq]
  omega

theorem searchSortLe_trans (a b c : QuickSearchResult) :
    searchSortLe a b = true → searchSortLe b c = true → searchSortLe a c = true := by
  unfold searchSortLe
  simp only [Bool.or_eq_true, Bool.and_eq_true, decide_eq_true_eq]
  omega

theorem searchSortLe_confidence {a b : QuickSearchResult} :
    searchSortLe a b = true → b.confidence.getD 0 ≤ a.confidence.getD 0 := by
  unfold searchSortLe searchSortKey
  simp only [Bool.or_eq_true, Bool.and_eq_true, decide_eq_true_eq]
  omega

/-- The fan-out loop collects exactly the successful sources' results. -/
theorem gatherResults_eq
    (f : String → Except String (List QuickSearchResult)) :
    ∀ sources : List String,
      gatherResults f sources = (sources.filterMap (fun s => (f s).toOption)).flatten
  | [] => rfl
  | s :: rest => by
    unfold gatherResults
    cases h : f s with
    | ok rs =>
      simp [List.filterMap_cons, h, Except.toOption, gatherResults_eq f rest]
    | error e =>
      simp [List.filterMap_cons, h, Except.toOption, gatherResults_eq f rest]

/-- C7: during multi-source search fan-out, a failing source contributes
zero results without failing the whole request — the aggregate equals the
sorted concatenation of the successful sources' results — and the response
is sorted by confidence descending and truncated to the requested limit. -/
theorem c7_search_fanout_partial_results
    (f : String → Except String (List QuickSearchResult))
    (sources : List String) (limit : Nat) :
    searchAggregate f sources limit =
      (sortStableBy searchSortLe
        ((sources.filterMap (fun s => (f s).toOption)).flatten)).take limit ∧
    (searchAggregate f sources limit).Pairwise
      (fun a b => b.confidence.getD 0 ≤ a.confidence.getD 0) ∧
    (searchAggregate f sources limit).length ≤ limit := by
  refine ⟨?_, ?_, ?_⟩
  · unfold searchAggregate
    rw [gatherResults_eq]
  · unfold searchAggregate
    have hs := pairwise_sortStableBy searchSortLe searchSortLe_trans
      searchSortLe_total (gatherResults f sources)
    have hs2 := hs.imp (fun hab => searchSortLe_confidence hab)
    exact List.Pairwise.sublist (List.take_sublist _ _) hs2
  · unfold searchAggregate
    rw [List.length_take]
    exact min_le_left _ _

/-- An adapter instance: the construction inputs cached when
`_ensure_adapter_for_source` builds it (the merged config dictionary, the
normalized name and the resolved source type).  Per the adapter contract,
instances are stateless across calls except for this cached configuration. -/
structure Adapter where
  cfg : SourceRec
  normName : String
  srcType : String
deriving Repr

/-- The process-wide adapter registry (`adapter_registry.adapters`),
modelled as a partial map from normalized source names to adapters. -/
def Reg : Type := String → Option Adapter

/-- Registration of an adapter under a name. -/
def updateReg (r : Reg) (n : String) (a : Adapter) : Reg :=
  fun k => if k = n then some a else r k

/-- The adapter classes known to the registry
(`AdapterRegistry._adapter_classes`, config_endpoints.py:99-105). -/
def adapterClasses : List String :=
  ["wikidata", "oxigraph", "ontop", "django_db", "ols"]

/-- `source.get("type") or source.get("source_type")` with the legacy
`fuseki` alias mapped to `oxigraph` (main.py:255-257). -/
def effectiveAdapterType (s : SourceRec) : Option String :=
  match pyOrO s.typeF s.sourceTypeF with
  | some "fuseki" => some "oxigraph"
  | t => t

/-- `_adapter_classes.get(source_type)` (main.py:258): the adapter kind, if
the effective type is known. -/
def adapterClassType (s : SourceRec) : Option String :=
  match effectiveAdapterType s with
  | some t => if adapterClasses.contains t then some t else none
  | none => none

/-- Embeds `_ensure_adapter_for_source` (main.py:249-268): skip unnamed
sources, skip names already registered, skip unknown adapter types,
otherwise register a freshly built adapter. -/
def ensureAdapterForSource (r : Reg) (s : SourceRec) : Reg :=
  let n := normalizeSourceName s.name
  if n = "" then r
  else if (r n).isSome then r
  else
    match adapterClassType s with
    | none => r
    | some st => updateReg r n ⟨s, n, st⟩

/-- Ensuring adapters for a list of sources, in order. -/
def ensureAll (l : List SourceRec) (r : Reg) : Reg :=
  l.foldl ensureAdapterForSource r

/-- A source is settled in a registry when ensuring it cannot change the
registry: unnamed, already registered, or of unknown type. -/
def adapterSettled (s : SourceRec) (r : Reg) : Prop :=
  normalizeSourceName s.name = "" ∨
    (r (normalizeSourceName s.name)).isSome = true ∨
    adapterClassType s = none

theorem ensure_mono (r : Reg) (t : SourceRec) (k : String)
    (h : (r k).isSome = true) : ((ensureAdapterForSource r t) k).isSome = true := by
  unfold ensureAdapterForSource
  by_cases h1 : normalizeSourceName t.name = ""
  · rw [if_pos h1]; exact h
  · rw [if_neg h1]
    by_cases h2 : (r (normalizeSourceName t.name)).isSome = true
    · rw [if_pos h2]; exact h
    · rw [if_neg h2]
      cases h3 : adapterClassType t with
      | none => exact h
      | some st =>
        unfold updateReg
        by_cases h4 : k = normalizeSourceName t.name
        · simp [h4]
        · simp [h4, h]

theorem ensure_settled_self (r : Reg) (s : SourceRec) :
    adapterSettled s (ensureAdapterForSource r s) := by
  unfold adapterSettled ensureAdapterForSource
  by_cases h1 : normalizeSourceName s.name = ""
  · exact Or.inl h1
  · rw [if_neg h1]
    by_cases h2 : (r (normalizeSourceName s.name)).isSome = true
    · rw [if_pos h2]; exact Or.inr (Or.inl h2)
    · rw [if_neg h2]
      cases h3 : adapterClassType s with
      | none => exact Or.inr (Or.inr rfl)
      | some st =>
        refine Or.inr (Or.inl ?_)
        unfold updateReg
        simp

theorem settled_mono (s t : SourceRec) (r : Reg) (h : adapterSettled s r) :
    adapterSettled s (ensureAdapterForSource r t) := by
  rcases h with h | h | h
  · exact Or.inl h
  · exact Or.inr (Or.inl (ensure_mono r t _ h))
  · exact Or.inr (Or.inr h)

theorem ensure_of_settled (r : Reg) (s : SourceRec) (h : adapterSettled s r) :
    ensureAdapterForSource r s = r := by
  unfold ensureAdapterForSource
  by_cases h1 : normalizeSourceName s.name = ""
  · rw [if_pos h1]
  · rw [if_neg h1]
    rcases h with h | h | h
    · exact absurd h h1
    · rw [if_pos h]
    · by_cases h2 : (r (normalizeSourceName s.name)).isSome = true
      · rw [if_pos h2]
      · rw [if_neg h2, h]

theorem ensureAll_mono_settled (l : List SourceRec) :
    ∀ (r : Reg) (s : SourceRec), adapterSettled s r →
      adapterSettled s (ensureAll l r) := by
  induction l with
  | nil => intro r s h; exact h
  | cons a t ih =>
    intro r s h
    exact ih (ensureAdapterForSource r a) s (settled_mono s a r h)

theorem ensureAll_settles (l : List SourceRec) :
    ∀ (r : Reg) (s : SourceRec), s ∈ l → adapterSettled s (ensureAll l r) := by
  induction l with
  | nil => intro r s h; cases h
  | cons a t ih =>
    intro r s h
    rcases List.mem_cons.mp h with rfl | hm
    · exact ensureAll_mono_settled t (ensureAdapterForSource r s) s
        (ensure_settled_self r s)
    · exact ih (ensureAdapterForSource r a) s hm

theorem ensureAll_fixpoint (l : List SourceRec) :
    ∀ r : Reg, (∀ s ∈ l, adapterSettled s r) → ensureAll l r = r := by
  induction l with
  | nil => intro r _; rfl
  | cons a t ih =>
    intro r h
    show ensureAll t (ensureAdapterForSource r a) = r
    rw [ensure_of_settled r a (h a (List.mem_cons_self a t))]
    exact ih r (fun s hs => h s (List.mem_cons_of_mem a hs))

/-- Re-ensuring the same source list leaves the registry unchanged. -/
theorem ensureAll_idem (l : List SourceRec) (r : Reg) :
    ensureAll l (ensureAll l r) = ensureAll l r :=
  ensureAll_fixpoint l (ensureAll l r) (fun s hs => ensureAll_settles l r s hs)

/-- One entry of the `/api/data-sources` response (main.py:945-960). -/
structure DataSourcePayload where
  pid : Option Int
  name : String
  srcType : String
  active : Bool
  description : String
  displayName : String
  icon : String
  color : String
  canManage : Bool
  canAdmin : Bool
  ontopConfig : Option (List (String × String) × SecurityPolicy)
deriving Repr, DecidableEq

/-- The `source_records` dictionary of `get_data_sources` (main.py:907-928):
named records keyed by normalized name, later entries overriding earlier
ones. -/
def recordMapOf (recs : List SourceRec) : List (String × SourceRec) :=
  (recs.filter (fun s => s.name ≠ "")).map (fun s => (normalizeSourceName s.name, s))

/-- Dictionary lookup with Python override semantics (the last binding of a
key wins). -/
def lookupLast (m : List (String × SourceRec)) (k : String) : Option SourceRec :=
  (m.reverse.find? (fun q => q.1 = k)).map (fun q => q.2)

/-- The per-source payload assembly of `get_data_sources` (main.py:932-960).
The adapter accessors `get_source_config().get("source_type", "unknown")`
and `get_ui_config()` live in the adapter classes outside this repository
slice; they are abstracted as arbitrary pure functions `gsc` and `guc` of
the cached adapter, which is all the idempotence claim needs. -/
def payloadFor (gsc : Adapter → Option String) (guc : Adapter → UiConfig)
    (m : List (String × SourceRec)) (reg : Reg)
    (sourceName : String) : DataSourcePayload :=
  let rec0 := (lookupLast m sourceName).getD {}
  let aOpt := reg sourceName
  let typeB := match aOpt with
    | some a => (gsc a).getD "unknown"
    | none => pyOrD rec0.sourceTypeF (pyOrD rec0.typeF "unknown")
  let ui := match aOpt with
    | some a => guc a
    | none => rec0.uiConfig.getD {}
  { pid := rec0.sid
    name := sourceName
    srcType := pyOrD rec0.sourceTypeF typeB
    active := true
    description := pyOrD rec0.descriptionF
      (ui.uiDescription.getD (sourceName ++ " data source"))
    displayName := ui.displayName.getD
      (if rec0.name = "" then sourceName else rec0.name)
    icon := ui.icon.getD "📊"
    color := ui.color.getD "#000000"
    canManage := rec0.canManage
    canAdmin := rec0.canAdmin
    ontopConfig :=
      if sourceName = "ontop" && rec0.canManage then
        some (rec0.connectionConfig, rec0.securityPolicy.getD {})
      else none }

/-- Embeds `get_data_sources` (main.py:899-965) as a pure function of the
resolved caller, the record-store responses and the registry; returns the
response list together with the updated registry. -/
def getDataSources (gsc : Adapter → Option String) (guc : Adapter → UiConfig)
    (user : Option UserPayload) (anonSources userSources : List SourceRec)
    (reg : Reg) : List DataSourcePayload × Reg :=
  let relevant := match user with
    | some _ => userSources
    | none => anonSources.filter isPublicSourceRecord
  let m := recordMapOf relevant
  let reg1 := ensureAll relevant reg
  let accessibleNames := dedupStr (m.map (fun q => q.1))
  let sourceNames := sortStrings accessibleNames
  ((sourceNames.filter (fun n => accessibleNames.contains n)).map
    (payloadFor gsc guc m reg1), reg1)

/-- The name recorded in a payload is the normalized source name it was
built for. -/
theorem payloadFor_name (gsc : Adapter → Option String) (guc : Adapter → UiConfig)
    (m : List (String × SourceRec)) (reg : Reg) (n : String) :
    (payloadFor gsc guc m reg n).name = n := rfl

/-- C9: with unchanged backing state, a repeated `/api/data-sources` call
(running on the registry the first call produced) returns the identical
list, and the list is ordered ascending by case/space-normalized source
name. -/
theorem c9_data_sources_idempotent_and_sorted (gsc : Adapter → Option String)
    (guc : Adapter → UiConfig) (user : Option UserPayload)
    (anonSources userSources : List SourceRec) (reg : Reg) :
    (getDataSources gsc guc user anonSources userSources
        (getDataSources gsc guc user anonSources userSources reg).2).1 =
      (getDataSources gsc guc user anonSources userSources reg).1 ∧
    ((getDataSources gsc guc user anonSources userSources reg).1.map
        (fun q => q.name)).Pairwise (fun a b => strLeB a b = true) := by
  constructor
  · unfold getDataSources
    cases user <;> simp only [ensureAll_idem]
  · unfold getDataSources
    cases user <;>
      simp only [List.map_map, Function.comp_def, payloadFor_name, List.map_id',
        sortStrings] <;>
      exact List.Pairwise.filter _
        (pairwise_sortStableBy strLeB strLeB_trans strLeB_total _)

/-- An ASCII single-quote, as used in FastAPI error messages. -/
def sQuote : String := String.singleton (Char.ofNat 39)

/-- Outcome of `/api/map-nodes/{node_id}` up to the adapter calls. -/
inductive MapNodesOutcome
  | httpErr (status : Nat) (detail : String)
  | proceeds (nodeId sourceName : String)
deriving Repr, DecidableEq

/-- Embeds the source-count handling of `get_map_nodes` (main.py:845-855):
more than one resolved source is rejected with 400; the unguarded
`sources[0]` on an empty list raises `IndexError`, which the blanket
`except Exception` turns into a 500 whose detail wraps the Python message;
a single source proceeds to the adapter stage (or 404 if no adapter is
registered, re-raised from `get_adapter`).  The adapter calls themselves
are beyond this model. -/
def getMapNodesResolved (reg : Reg) (nodeId : String)
    (sources : List String) : MapNodesOutcome :=
  if sources.length > 1 then
    .httpErr 400 "Multiple sources not yet supported for map nodes"
  else
    match sources.head? with
    | none => .httpErr 500 "Failed to get map nodes: list index out of range"
    | some source =>
      match reg source with
      | none => .httpErr 404 ("Data source " ++ sQuote ++ source ++ sQuote ++ " not found")
      | some _ => .proceeds nodeId source

/-- The `/api/map-nodes` handler (main.py:833-897): source resolution, then
the count-gated body; an `HTTPException` from resolution is re-raised. -/
def getMapNodes (user : Option UserPayload)
    (anonSources userSources : List SourceRec) (reg : Reg) (nodeId : String)
    (requested : Option (List String)) : MapNodesOutcome :=
  match resolveSourcesForRequest user anonSources userSources requested with
  | .error e => .httpErr e.status e.detail
  | .ok sources => getMapNodesResolved reg nodeId sources

/-- C10: a map-nodes request whose resolved source list is empty — e.g. an
anonymous caller with no public sources and no explicit request — trips the
unguarded first-element access and surfaces as a 500 internal error, while
only the more-than-one-source case is rejected with a 400 client error. -/
theorem c10_map_nodes_empty_sources_internal_error :
    (∀ (anonSources userSources : List SourceRec) (reg : Reg) (nodeId : String),
      (∀ s ∈ anonSources, isPublicSourceRecord s = false) →
      getMapNodes none anonSources userSources reg nodeId none =
        .httpErr 500 "Failed to get map nodes: list index out of range") ∧
    (∀ (reg : Reg) (nodeId : String) (sources : List String),
      sources.length > 1 →
      getMapNodesResolved reg nodeId sources =
        .httpErr 400 "Multiple sources not yet supported for map nodes") := by
  constructor
  · intro anonSources userSources reg nodeId hpub
    have hfilter : anonSources.filter isPublicSourceRecord = [] :=
      List.filter_eq_nil_iff.mpr (fun s hs => by simp [hpub s hs])
    have hpn : anonymousPublicNames anonSources = [] := by
      unfold anonymousPublicNames
      rw [hfilter]
      rfl
    have hres : resolveSourcesForRequest none anonSources userSources none
        = .ok [] := by
      simp only [resolveSourcesForRequest, hpn]
      rfl
    unfold getMapNodes
    rw [hres]
    rfl
  · intro reg nodeId sources h
    unfold getMapNodesResolved
    rw [if_pos h]

/-- C10 witness: both conjuncts at concrete inputs — an empty record store
for the 500 case and a two-source list for the 400 case. -/
theorem c10_map_nodes_empty_sources_internal_error_witness :
    getMapNodes none [] [] (fun _ => none) "Q42" none =
      .httpErr 500 "Failed to get map nodes: list index out of range" ∧
    getMapNodesResolved (fun _ => none) "Q42" ["wikidata", "ontop"] =
      .httpErr 400 "Multiple sources not yet supported for map nodes" :=
  ⟨c10_map_nodes_empty_sources_internal_error.1 [] [] (fun _ => none) "Q42"
      (fun s hs => absurd hs (List.not_mem_nil s)),
   c10_map_nodes_empty_sources_internal_error.2 (fun _ => none) "Q42"
      ["wikidata", "ontop"] (by decide)⟩
